import Mathlib

/-!
Verification of the ComfyUI-server orchestration core (`src/api/service.py`).

The Python module under verification exposes `Service.text2img` and
`Service.img2img`.  Both build a prompt by substituting caller parameters
into a workflow template (`string.Template.substitute` followed by
`json.loads`) and submit the parsed prompt to the ComfyUI backend via
`queue_prompt`.  `img2img` additionally base64-decodes the caller's image,
uploads it (`upload_image`), composes the uploaded file's backend-relative
path, and deletes the uploaded file (`clean_file`) in a `finally` block
wrapped around the `queue_prompt` call only.

The embedding below is a shallow one: backend calls are recorded in a
trace, and each backend call's outcome for the request is a field of the
`ComfyServer` state.  Python's `try/finally` semantics are embedded
directly: if the `finally` body raises, that exception replaces the
`try` body's outcome (a returned value or a primary exception is lost).
-/

namespace ComfyService

/-- Byte strings are modelled as lists of byte values. -/
abbrev Bytes := List Nat

/-- The Python exceptions that can escape the two service operations.
`typeError` is raised by `base64.b64decode(None)`; `binasciiError` by
`base64.b64decode` on malformed input; `keyError` by
`string.Template.substitute` when the template has a placeholder absent
from the mapping; `jsonDecodeError` by `json.loads`.  The backend-raised
errors carry an opaque message. -/
inductive PyErr where
  | typeError
  | binasciiError
  | keyError (name : String)
  | jsonDecodeError
  | uploadError (msg : String)
  | submissionError (msg : String)
  | cleanupError (msg : String)
  deriving DecidableEq, Repr

/-- Modelled from the spec: `database.Record` is not under `src/`; per the
spec, a JobRecord binds the caller's task id to the backend's accepted job
id.  Its exact fields are irrelevant to the claims: the operations return
whatever record `queue_prompt` produced. -/
structure Record where
  client_task_id : Int
  backend_job_id : String
  deriving DecidableEq, Repr

/-- The response of `upload_image`: the stored file name and an optional
subfolder (empty string when absent). -/
structure UploadResp where
  name : String
  subfolder : String
  deriving DecidableEq, Repr

/-- The per-request outcomes of the three backend calls made through the
`ComfyServer` client (`comfy` module, external collaborator): each field
is what the corresponding call returns or raises if it is made during the
request. -/
structure ComfyServer where
  upload_image_resp : Except PyErr UploadResp
  queue_prompt_resp : Except PyErr Record
  clean_file_resp : Except PyErr Unit

/-- Python `str()` as applied by `string.Template.substitute` to a mapping
value that is either a string or `None`. -/
def pyStr : Option String → String
  | none => "None"
  | some s => s

/-- A workflow template, modelled as the parsed segment list of the
Python `string.Template` string: literal text interleaved with named
substitution points (`$name` placeholders). -/
inductive Seg where
  | lit (s : String)
  | hole (name : String)
  deriving DecidableEq, Repr

abbrev Template := List Seg

/-- `string.Template.substitute`: replace every placeholder by the
`str()` of its mapping value; a placeholder missing from the mapping
raises `KeyError`. -/
def substitute (t : Template) (mapping : List (String × Option String)) :
    Except PyErr String :=
  match t with
  | [] => .ok ""
  | Seg.lit s :: rest => (substitute rest mapping).map (fun r => s ++ r)
  | Seg.hole n :: rest =>
    match mapping.lookup n with
    | none => .error (PyErr.keyError n)
    | some v => (substitute rest mapping).map (fun r => pyStr v ++ r)

/-- The value of a base64 alphabet character, `none` for anything else. -/
def b64Val (c : Char) : Option Nat :=
  if 'A' ≤ c ∧ c ≤ 'Z' then some (c.toNat - 65)
  else if 'a' ≤ c ∧ c ≤ 'z' then some (c.toNat - 97 + 26)
  else if '0' ≤ c ∧ c ≤ '9' then some (c.toNat - 48 + 52)
  else if c = '+' then some 62
  else if c = '/' then some 63
  else none

/-- Decode base64 input four characters at a time, accepting `=` padding
only at the end; `none` models the `binascii.Error` that
`base64.b64decode` raises on malformed input (wrong length, bad padding
or an alphabet violation). -/
def b64quads : List Char → Option Bytes
  | [] => some []
  | a :: b :: '=' :: '=' :: [] => do
    let va ← b64Val a
    let vb ← b64Val b
    pure [va * 4 + vb / 16]
  | a :: b :: c :: '=' :: [] => do
    let va ← b64Val a
    let vb ← b64Val b
    let vc ← b64Val c
    pure [va * 4 + vb / 16, vb % 16 * 16 + vc / 4]
  | a :: b :: c :: d :: rest => do
    let va ← b64Val a
    let vb ← b64Val b
    let vc ← b64Val c
    let vd ← b64Val d
    let tail ← b64quads rest
    pure ([va * 4 + vb / 16, vb % 16 * 16 + vc / 4, vc % 4 * 64 + vd] ++ tail)
  | _ => none

/-- `base64.b64decode` as called in `img2img`: its argument is
`params.get('image')`, so a missing key (Python `None`) raises
`TypeError`; malformed base64 raises `binascii.Error`. -/
def b64decodePy : Option String → Except PyErr Bytes
  | none => .error PyErr.typeError
  | some s =>
    match b64quads s.data with
    | none => .error PyErr.binasciiError
    | some bs => .ok bs

/-- Parsed JSON values, the result type of `json.loads`. -/
inductive JVal where
  | null
  | bool (b : Bool)
  | num (n : Int)
  | str (s : String)
  | arr (xs : List JVal)
  | obj (fields : List (String × JVal))

/-- Skip JSON whitespace. -/
def skipWs : List Char → List Char
  | c :: cs => if c = ' ' ∨ c = '\n' ∨ c = '\t' ∨ c = '\r' then skipWs cs else c :: cs
  | [] => []

/-- JSON string escape characters (the `\uXXXX` form, never produced by
the templates or the service, is not modelled). -/
def escChar : Char → Option Char
  | '"' => some '"'
  | '\\' => some '\\'
  | '/' => some '/'
  | 'b' => some (Char.ofNat 8)
  | 'f' => some (Char.ofNat 12)
  | 'n' => some '\n'
  | 'r' => some '\r'
  | 't' => some '\t'
  | _ => none

/-- Parse the body of a JSON string after its opening quote; raw control
characters are rejected as `json.loads` does in strict mode. -/
def parseStrBody : List Char → Option (String × List Char)
  | [] => none
  | '"' :: cs => some ("", cs)
  | '\\' :: [] => none
  | '\\' :: e :: cs =>
    match escChar e with
    | none => none
    | some ec => (parseStrBody cs).map (fun p => (String.mk (ec :: p.1.data), p.2))
  | c :: cs =>
    if c.toNat < 32 then none
    else (parseStrBody cs).map (fun p => (String.mk (c :: p.1.data), p.2))

/-- Parse a JSON integer literal (the job-specification fragment the
service handles uses no fractional or exponent forms). -/
def parseNum (cs : List Char) : Option (JVal × List Char) :=
  let stripped := match cs with
    | '-' :: r => (true, r)
    | _ => (false, cs)
  let ds := stripped.2.takeWhile Char.isDigit
  let rest := stripped.2.dropWhile Char.isDigit
  if ds.isEmpty then none
  else if 1 < ds.length ∧ ds.headI = '0' then none
  else
    let n : Nat := ds.foldl (fun a c => a * 10 + (c.toNat - 48)) 0
    some (JVal.num (if stripped.1 then -(n : Int) else (n : Int)), rest)

mutual

/-- Fuel-indexed recursive-descent JSON value parser; together with
`skipWs` this models `json.loads` on the fragment of JSON the service's
prompts live in. -/
def parseVal : Nat → List Char → Option (JVal × List Char)
  | 0, _ => none
  | Nat.succ fuel, cs =>
    match skipWs cs with
    | '"' :: rest => (parseStrBody rest).map (fun p => (JVal.str p.1, p.2))
    | 't' :: 'r' :: 'u' :: 'e' :: rest => some (JVal.bool true, rest)
    | 'f' :: 'a' :: 'l' :: 's' :: 'e' :: rest => some (JVal.bool false, rest)
    | 'n' :: 'u' :: 'l' :: 'l' :: rest => some (JVal.null, rest)
    | '[' :: rest =>
      match skipWs rest with
      | ']' :: r2 => some (JVal.arr [], r2)
      | r2 => (parseElems fuel r2).map (fun p => (JVal.arr p.1, p.2))
    | '\x7b' :: rest =>
      match skipWs rest with
      | '\x7d' :: r2 => some (JVal.obj [], r2)
      | r2 => (parseFields fuel r2).map (fun p => (JVal.obj p.1, p.2))
    | rest => parseNum rest

/-- Parse the comma-separated elements of a non-empty JSON array, up to
and including the closing bracket. -/
def parseElems : Nat → List Char → Option (List JVal × List Char)
  | 0, _ => none
  | Nat.succ fuel, cs =>
    match parseVal fuel cs with
    | none => none
    | some (v, rest) =>
      match skipWs rest with
      | ',' :: r2 => (parseElems fuel r2).map (fun p => (v :: p.1, p.2))
      | ']' :: r2 => some ([v], r2)
      | _ => none

/-- Parse the comma-separated fields of a non-empty JSON object, up to
and including the closing brace. -/
def parseFields : Nat → List Char → Option (List (String × JVal) × List Char)
  | 0, _ => none
  | Nat.succ fuel, cs =>
    match skipWs cs with
    | '"' :: rest =>
      match parseStrBody rest with
      | none => none
      | some (k, r1) =>
        match skipWs r1 with
        | ':' :: r2 =>
          match parseVal fuel r2 with
          | none => none
          | some (v, r3) =>
            match skipWs r3 with
            | ',' :: r4 => (parseFields fuel r4).map (fun p => ((k, v) :: p.1, p.2))
            | '\x7d' :: r4 => some ([(k, v)], r4)
            | _ => none
        | _ => none
    | _ => none

end

/-- `json.loads`: parse one JSON value and require only whitespace after
it; any failure raises `json.JSONDecodeError`.  The fuel is generous: a
parse of a string of length `n` can never nest or iterate more than
`2 * n + 8` fuel steps deep. -/
def json_loads (s : String) : Except PyErr JVal :=
  match parseVal (s.length * 2 + 8) s.data with
  | some (v, rest) => if (skipWs rest).isEmpty then .ok v else .error PyErr.jsonDecodeError
  | none => .error PyErr.jsonDecodeError

/-- Template rendering as the two consecutive statements in the service:
`prompt_str = TEMPLATE.substitute(...)` then
`prompt_json = json.loads(prompt_str)`. -/
def render (t : Template) (mapping : List (String × Option String)) :
    Except PyErr JVal :=
  (substitute t mapping).bind json_loads

/-- One backend call made by a service operation, recorded with its
arguments: `upload_image(image_bytes)`,
`queue_prompt(client_task_id, prompt_json)` and
`clean_file(is_input, image_path)`. -/
inductive Call where
  | upload_image (image_bytes : Bytes)
  | queue_prompt (client_task_id : Int) (prompt : JVal)
  | clean_file (is_input : Bool) (image_path : String)

/-- The paths of the `clean_file` calls in a trace. -/
def deleteCalls (tr : List Call) : List String :=
  tr.filterMap (fun c =>
    match c with
    | Call.clean_file _ p => some p
    | _ => none)

/-- The payloads of the `upload_image` calls in a trace. -/
def uploadCalls (tr : List Call) : List Bytes :=
  tr.filterMap (fun c =>
    match c with
    | Call.upload_image bs => some bs
    | _ => none)

/-- `Service.text2img`: substitute `text` into the text-to-image
template, parse the result as JSON and queue it.  The returned pair is
the trace of backend calls in order and the Python outcome (returned
record or raised exception). -/
def text2img (B : ComfyServer) (T : Template) (client_task_id : Int)
    (params : List (String × String)) : List Call × Except PyErr Record :=
  let text := params.lookup "text"
  match substitute T [("text", text)] with
  | .error e => ([], .error e)
  | .ok prompt_str =>
    match json_loads prompt_str with
    | .error e => ([], .error e)
    | .ok prompt_json =>
      ([Call.queue_prompt client_task_id prompt_json], B.queue_prompt_resp)

/-- `Service.img2img`: base64-decode the caller's image, upload it,
compose the backend-relative path (`subfolder/name` when the subfolder is
non-empty, else `name`), substitute `text` and the path into the
image-to-image template, parse, and queue inside `try/finally` whose
`finally` deletes the uploaded file.  Python `finally` semantics: the
`clean_file` call always follows the `queue_prompt` call, and an
exception raised by `clean_file` replaces the `try` body's outcome. -/
def img2img (B : ComfyServer) (T : Template) (client_task_id : Int)
    (params : List (String × String)) : List Call × Except PyErr Record :=
  let text := params.lookup "text"
  let image_base64 := params.lookup "image"
  match b64decodePy image_base64 with
  | .error e => ([], .error e)
  | .ok image_bytes =>
    match B.upload_image_resp with
    | .error e => ([Call.upload_image image_bytes], .error e)
    | .ok resp =>
      let image_path := resp.name
      let image_path :=
        if resp.subfolder ≠ "" then resp.subfolder ++ "/" ++ image_path else image_path
      match substitute T [("text", text), ("image", some image_path)] with
      | .error e => ([Call.upload_image image_bytes], .error e)
      | .ok prompt_str =>
        match json_loads prompt_str with
        | .error e => ([Call.upload_image image_bytes], .error e)
        | .ok prompt_json =>
          match B.clean_file_resp with
          | .error e =>
            ([Call.upload_image image_bytes,
              Call.queue_prompt client_task_id prompt_json,
              Call.clean_file true image_path], .error e)
          | .ok _ =>
            ([Call.upload_image image_bytes,
              Call.queue_prompt client_task_id prompt_json,
              Call.clean_file true image_path], B.queue_prompt_resp)

/-- Modelled from the spec: `workflows/text2img.py` is not under `src/`.
Per the spec, the text-to-image workflow template is a JSON job
specification with a single `text` substitution point, which necessarily
sits inside a JSON string value of the job graph. -/
def TEXT2IMG_PROMPT_TEMPLATE : Template :=
  [Seg.lit "\x7b\"6\": \x7b\"inputs\": \x7b\"text\": \"",
   Seg.hole "text",
   Seg.lit "\"\x7d\x7d\x7d"]

/-- Modelled from the spec: `workflows/img2img.py` is not under `src/`.
Per the spec, the image-to-image workflow template is a JSON job
specification with `text` and `image` substitution points, both inside
JSON string values of the job graph. -/
def IMG2IMG_PROMPT_TEMPLATE : Template :=
  [Seg.lit "\x7b\"6\": \x7b\"inputs\": \x7b\"text\": \"",
   Seg.hole "text",
   Seg.lit "\"\x7d\x7d, \"10\": \x7b\"inputs\": \x7b\"image\": \"",
   Seg.hole "image",
   Seg.lit "\"\x7d\x7d\x7d"]

/-- The parsed text-to-image prompt for a given text. -/
def t2iJson (text : String) : JVal :=
  JVal.obj [("6", JVal.obj [("inputs", JVal.obj [("text", JVal.str text)])])]

/-- The parsed image-to-image prompt for a given text and image path. -/
def i2iJson (text image : String) : JVal :=
  JVal.obj [("6", JVal.obj [("inputs", JVal.obj [("text", JVal.str text)])]),
    ("10", JVal.obj [("inputs", JVal.obj [("image", JVal.str image)])])]

/-- The bytes of a string, for comparing a textual parameter with an
uploaded binary payload. -/
def strBytes (s : String) : Bytes := s.data.map Char.toNat

/-- A concrete record for the backend to return. -/
def recA : Record := ⟨7, "prompt-1"⟩

/-- A concrete upload response with a non-empty subfolder. -/
def respInputs : UploadResp := ⟨"img123.png", "inputs"⟩

/-- A backend on which every call succeeds. -/
def Bok : ComfyServer := ⟨.ok respInputs, .ok recA, .ok ()⟩

/-- A backend on which only `clean_file` fails. -/
def BdelFail : ComfyServer :=
  ⟨.ok respInputs, .ok recA, .error (PyErr.cleanupError "disk full")⟩

/-- A backend on which only `queue_prompt` fails. -/
def BsubFail : ComfyServer :=
  ⟨.ok respInputs, .error (PyErr.submissionError "rejected"), .ok ()⟩

/-- A backend on which `upload_image` fails. -/
def BupFail : ComfyServer :=
  ⟨.error (PyErr.uploadError "connection refused"), .ok recA, .ok ()⟩

/-- A backend whose upload lands `a.png` in subfolder `x`. -/
def BrespX : ComfyServer := ⟨.ok ⟨"a.png", "x"⟩, .ok recA, .ok ()⟩

/-- A backend whose upload lands `a.png` with no subfolder. -/
def BrespRoot : ComfyServer := ⟨.ok ⟨"a.png", ""⟩, .ok recA, .ok ()⟩

/-- Request parameters with an ordinary text and a valid base64 image
(`"aGk="` decodes to the two bytes `[104, 105]`). -/
def pHello : List (String × String) := [("text", "hello"), ("image", "aGk=")]

/-- Request parameters whose text is a single double-quote character. -/
def pQuote : List (String × String) := [("text", "\""), ("image", "aGk=")]

/-- Text-to-image request parameters. -/
def pFox : List (String × String) := [("text", "a red fox")]

/-- Request parameters with no `text` key. -/
def pNoText : List (String × String) := [("image", "aGk=")]

/-- Splitting a successful `render` into its two stages. -/
theorem render_ok_elim {t : Template} {m : List (String × Option String)} {j : JVal}
    (h : render t m = .ok j) :
    ∃ s, substitute t m = .ok s ∧ json_loads s = .ok j := by
  cases hs : substitute t m with
  | error e =>
    rw [render, hs] at h
    exact absurd h (by simp [Except.bind])
  | ok s =>
    rw [render, hs] at h
    exact ⟨s, rfl, h⟩

/-- Splitting a failed `render` into its two possible failing stages. -/
theorem render_error_elim {t : Template} {m : List (String × Option String)} {e : PyErr}
    (h : render t m = .error e) :
    substitute t m = .error e ∨
      ∃ s, substitute t m = .ok s ∧ json_loads s = .error e := by
  cases hs : substitute t m with
  | error e2 =>
    rw [render, hs] at h
    simp only [Except.bind, Except.error.injEq] at h
    exact Or.inl (by rw [h])
  | ok s =>
    rw [render, hs] at h
    exact Or.inr ⟨s, rfl, h⟩

/-- Claim C1, counterexample: on a request whose text is a single double
quote, the upload succeeds and rendering fails (`json.loads` rejects the
substituted prompt), yet the operation makes no `clean_file` call before
the failure propagates — the `finally` only wraps `queue_prompt`. -/
theorem img2img_render_failure_counterexample :
    (img2img Bok IMG2IMG_PROMPT_TEMPLATE 9 pQuote).2 = .error PyErr.jsonDecodeError
    ∧ uploadCalls (img2img Bok IMG2IMG_PROMPT_TEMPLATE 9 pQuote).1 = [[104, 105]]
    ∧ deleteCalls (img2img Bok IMG2IMG_PROMPT_TEMPLATE 9 pQuote).1 = [] :=
  ⟨rfl, rfl, rfl⟩

/-- Claim C1, amended: for every image-to-image request in which upload
succeeds but rendering the template fails (in substitution or in parsing
the substituted text), the operation does NOT call `clean_file`: the trace
holds only the upload call and the render error propagates, leaving the
uploaded asset undeleted. -/
theorem img2img_render_failure_skips_cleanup (B : ComfyServer) (T : Template)
    (cid : Int) (params : List (String × String)) (bs : Bytes) (resp : UploadResp)
    (e : PyErr)
    (hb : b64decodePy (params.lookup "image") = .ok bs)
    (hu : B.upload_image_resp = .ok resp)
    (hr : render T [("text", params.lookup "text"),
        ("image", some (if resp.subfolder ≠ "" then resp.subfolder ++ "/" ++ resp.name
          else resp.name))] = .error e) :
    img2img B T cid params = ([Call.upload_image bs], .error e) := by
  rcases render_error_elim hr with hs | ⟨s, hs, hj⟩
  · simp only [img2img, hb, hu, hs]
  · simp only [img2img, hb, hu, hs, hj]

/-- Claim C1, witness: the amended theorem applied to the double-quote
request against the all-success backend. -/
theorem img2img_render_failure_skips_cleanup_witness :
    b64decodePy (pQuote.lookup "image") = .ok [104, 105]
    ∧ Bok.upload_image_resp = .ok respInputs
    ∧ render IMG2IMG_PROMPT_TEMPLATE [("text", pQuote.lookup "text"),
        ("image", some (if respInputs.subfolder ≠ "" then
          respInputs.subfolder ++ "/" ++ respInputs.name else respInputs.name))] =
        .error PyErr.jsonDecodeError
    ∧ img2img Bok IMG2IMG_PROMPT_TEMPLATE 9 pQuote =
        ([Call.upload_image [104, 105]], .error PyErr.jsonDecodeError) :=
  ⟨rfl, rfl, rfl,
    img2img_render_failure_skips_cleanup Bok IMG2IMG_PROMPT_TEMPLATE 9 pQuote
      [104, 105] respInputs PyErr.jsonDecodeError rfl rfl rfl⟩

/-- Claim C2, counterexample: with upload and `queue_prompt` succeeding
but `clean_file` raising, the operation's outcome is the cleanup error,
not the record `queue_prompt` produced — an exception in a Python
`finally` block replaces the `try` body's return value. -/
theorem img2img_cleanup_failure_counterexample :
    BdelFail.queue_prompt_resp = .ok recA
    ∧ (img2img BdelFail IMG2IMG_PROMPT_TEMPLATE 9 pHello).2 =
        .error (PyErr.cleanupError "disk full")
    ∧ (img2img BdelFail IMG2IMG_PROMPT_TEMPLATE 9 pHello).2 ≠ .ok recA :=
  ⟨rfl, rfl, fun h => Except.noConfusion h⟩

/-- Claim C2, amended: for every image-to-image request in which upload,
rendering and `queue_prompt` all succeed but `clean_file` fails, the
cleanup error propagates to the caller as the operation's outcome,
replacing the JobRecord that `queue_prompt` produced. -/
theorem img2img_cleanup_failure_replaces_result (B : ComfyServer) (T : Template)
    (cid : Int) (params : List (String × String)) (bs : Bytes) (resp : UploadResp)
    (j : JVal) (rec : Record) (e : PyErr)
    (hb : b64decodePy (params.lookup "image") = .ok bs)
    (hu : B.upload_image_resp = .ok resp)
    (hr : render T [("text", params.lookup "text"),
        ("image", some (if resp.subfolder ≠ "" then resp.subfolder ++ "/" ++ resp.name
          else resp.name))] = .ok j)
    (_hq : B.queue_prompt_resp = .ok rec)
    (hc : B.clean_file_resp = .error e) :
    (img2img B T cid params).2 = .error e := by
  obtain ⟨s, hs, hj⟩ := render_ok_elim hr
  simp only [img2img, hb, hu, hs, hj, hc]

/-- Claim C2, witness: the amended theorem applied to an ordinary request
against the backend whose `clean_file` fails. -/
theorem img2img_cleanup_failure_replaces_result_witness :
    b64decodePy (pHello.lookup "image") = .ok [104, 105]
    ∧ BdelFail.upload_image_resp = .ok respInputs
    ∧ render IMG2IMG_PROMPT_TEMPLATE [("text", pHello.lookup "text"),
        ("image", some (if respInputs.subfolder ≠ "" then
          respInputs.subfolder ++ "/" ++ respInputs.name else respInputs.name))] =
        .ok (i2iJson "hello" "inputs/img123.png")
    ∧ BdelFail.queue_prompt_resp = .ok recA
    ∧ BdelFail.clean_file_resp = .error (PyErr.cleanupError "disk full")
    ∧ (img2img BdelFail IMG2IMG_PROMPT_TEMPLATE 9 pHello).2 =
        .error (PyErr.cleanupError "disk full") :=
  ⟨rfl, rfl, rfl, rfl, rfl,
    img2img_cleanup_failure_replaces_result BdelFail IMG2IMG_PROMPT_TEMPLATE 9 pHello
      [104, 105] respInputs (i2iJson "hello" "inputs/img123.png") recA
      (PyErr.cleanupError "disk full") rfl rfl rfl rfl rfl⟩

/-- Claim C3 (confirmed): for every image-to-image request in which
upload and rendering succeed but `queue_prompt` fails, `clean_file` is
invoked exactly once, with the uploaded asset's path, after the
`queue_prompt` call and before the operation returns; and when the
cleanup call itself succeeds, the propagated outcome is exactly the
submission error. -/
theorem img2img_cleanup_on_submit_failure (B : ComfyServer) (T : Template)
    (cid : Int) (params : List (String × String)) (bs : Bytes) (resp : UploadResp)
    (p : String) (j : JVal) (e : PyErr)
    (hb : b64decodePy (params.lookup "image") = .ok bs)
    (hu : B.upload_image_resp = .ok resp)
    (hp : p = if resp.subfolder ≠ "" then resp.subfolder ++ "/" ++ resp.name
      else resp.name)
    (hr : render T [("text", params.lookup "text"), ("image", some p)] = .ok j)
    (hq : B.queue_prompt_resp = .error e) :
    (img2img B T cid params).1 =
      [Call.upload_image bs, Call.queue_prompt cid j, Call.clean_file true p]
    ∧ deleteCalls (img2img B T cid params).1 = [p]
    ∧ (B.clean_file_resp = .ok () → (img2img B T cid params).2 = .error e) := by
  obtain ⟨s, hs, hj⟩ := render_ok_elim hr
  subst hp
  cases hc : B.clean_file_resp with
  | error e2 =>
    refine ⟨?_, ?_, ?_⟩
    · simp only [img2img, hb, hu, hs, hj, hc]
    · simp only [img2img, hb, hu, hs, hj, hc]
      rfl
    · intro h
      exact Except.noConfusion h
  | ok u =>
    refine ⟨?_, ?_, ?_⟩
    · simp only [img2img, hb, hu, hs, hj, hc]
    · simp only [img2img, hb, hu, hs, hj, hc]
      rfl
    · intro _
      simp only [img2img, hb, hu, hs, hj, hc, hq]

/-- Claim C3, witness: the theorem applied to an ordinary request against
the backend whose `queue_prompt` fails. -/
theorem img2img_cleanup_on_submit_failure_witness :
    BsubFail.queue_prompt_resp = .error (PyErr.submissionError "rejected")
    ∧ (img2img BsubFail IMG2IMG_PROMPT_TEMPLATE 9 pHello).1 =
        [Call.upload_image [104, 105],
         Call.queue_prompt 9 (i2iJson "hello" "inputs/img123.png"),
         Call.clean_file true "inputs/img123.png"]
    ∧ deleteCalls (img2img BsubFail IMG2IMG_PROMPT_TEMPLATE 9 pHello).1 =
        ["inputs/img123.png"]
    ∧ (img2img BsubFail IMG2IMG_PROMPT_TEMPLATE 9 pHello).2 =
        .error (PyErr.submissionError "rejected") := by
  have h := img2img_cleanup_on_submit_failure BsubFail IMG2IMG_PROMPT_TEMPLATE 9 pHello
    [104, 105] respInputs "inputs/img123.png" (i2iJson "hello" "inputs/img123.png")
    (PyErr.submissionError "rejected") rfl rfl rfl rfl rfl
  exact ⟨rfl, h.1, h.2.1, h.2.2 rfl⟩

/-- Claim C4, counterexample: a caller text consisting of one double
quote is interpolated into the template unescaped, so `json.loads`
rejects the substituted prompt in both operations — `render` does not
encode the substituted value for JSON syntax. -/
theorem render_no_escaping_counterexample :
    render TEXT2IMG_PROMPT_TEMPLATE [("text", some "\"")] =
      .error PyErr.jsonDecodeError
    ∧ render IMG2IMG_PROMPT_TEMPLATE
        [("text", some "\""), ("image", some "inputs/img123.png")] =
      .error PyErr.jsonDecodeError :=
  ⟨rfl, rfl⟩

/-- Claim C4, amended: substitution performs no escaping or encoding at
all — the caller's text is spliced verbatim between the template's
literal segments — so text containing characters special to JSON (e.g. a
double quote) yields a render failure instead of a structurally valid
job specification. -/
theorem substitute_interpolates_verbatim (text : String) :
    substitute TEXT2IMG_PROMPT_TEMPLATE [("text", some text)] =
      .ok ("\x7b\"6\": \x7b\"inputs\": \x7b\"text\": \"" ++ (text ++ "\"\x7d\x7d\x7d"))
    ∧ ∀ image : String,
      substitute IMG2IMG_PROMPT_TEMPLATE [("text", some text), ("image", some image)] =
        .ok ("\x7b\"6\": \x7b\"inputs\": \x7b\"text\": \"" ++ (text ++
          ("\"\x7d\x7d, \"10\": \x7b\"inputs\": \x7b\"image\": \"" ++
            (image ++ "\"\x7d\x7d\x7d")))) :=
  ⟨rfl, fun _ => rfl⟩

/-- Claim C5, counterexample: the caller supplies the image as the base64
string `"aGk="`; the payload the operation passes to `upload_image` is
the decoded bytes `[104, 105]`, not the caller-supplied payload — the
base64 decoding happens inside `img2img` itself, not in the calling
layer. -/
theorem img2img_decodes_image_counterexample :
    pHello.lookup "image" = some "aGk="
    ∧ uploadCalls (img2img Bok IMG2IMG_PROMPT_TEMPLATE 1 pHello).1 = [[104, 105]]
    ∧ strBytes "aGk=" ≠ [104, 105] :=
  ⟨rfl, rfl, by decide⟩

/-- Claim C5, amended: for every image-to-image call, `img2img` itself
base64-decodes the caller's `image` parameter and every `upload_image`
call carries exactly those decoded bytes. -/
theorem img2img_uploads_decoded_bytes (B : ComfyServer) (T : Template) (cid : Int)
    (params : List (String × String)) (bs : Bytes)
    (hb : b64decodePy (params.lookup "image") = .ok bs) :
    uploadCalls (img2img B T cid params).1 = [bs] := by
  cases hu : B.upload_image_resp with
  | error e =>
    simp only [img2img, hb, hu]
    rfl
  | ok resp =>
    cases hs : substitute T [("text", params.lookup "text"),
        ("image", some (if resp.subfolder ≠ "" then resp.subfolder ++ "/" ++ resp.name
          else resp.name))] with
    | error e =>
      simp only [img2img, hb, hu, hs]
      rfl
    | ok s =>
      cases hj : json_loads s with
      | error e =>
        simp only [img2img, hb, hu, hs, hj]
        rfl
      | ok j =>
        cases hc : B.clean_file_resp with
        | error e =>
          simp only [img2img, hb, hu, hs, hj, hc]
          rfl
        | ok u =>
          simp only [img2img, hb, hu, hs, hj, hc]
          rfl

/-- Claim C5, witness: the amended theorem applied to the `"aGk="`
request against the all-success backend. -/
theorem img2img_uploads_decoded_bytes_witness :
    b64decodePy (pHello.lookup "image") = .ok [104, 105]
    ∧ uploadCalls (img2img Bok IMG2IMG_PROMPT_TEMPLATE 1 pHello).1 = [[104, 105]] :=
  ⟨rfl, img2img_uploads_decoded_bytes Bok IMG2IMG_PROMPT_TEMPLATE 1 pHello
    [104, 105] rfl⟩

/-- Claim C6 (confirmed): for every upload response, the path substituted
into the image-to-image template and later passed to `clean_file` is
`subfolder/name` when the returned subfolder is non-empty and exactly
`name` when it is empty. -/
theorem img2img_path_composition (B : ComfyServer) (T : Template) (cid : Int)
    (params : List (String × String)) (bs : Bytes) (resp : UploadResp)
    (p : String) (j : JVal)
    (hb : b64decodePy (params.lookup "image") = .ok bs)
    (hu : B.upload_image_resp = .ok resp)
    (hp : p = if resp.subfolder ≠ "" then resp.subfolder ++ "/" ++ resp.name
      else resp.name)
    (hr : render T [("text", params.lookup "text"), ("image", some p)] = .ok j) :
    deleteCalls (img2img B T cid params).1 = [p] := by
  obtain ⟨s, hs, hj⟩ := render_ok_elim hr
  subst hp
  cases hc : B.clean_file_resp with
  | error e =>
    simp only [img2img, hb, hu, hs, hj, hc]
    rfl
  | ok u =>
    simp only [img2img, hb, hu, hs, hj, hc]
    rfl

/-- Claim C6, witness: the theorem applied once with upload response
`{name: "a.png", subfolder: "x"}` (path `"x/a.png"`) and once with
`{name: "a.png", subfolder: ""}` (path `"a.png"`). -/
theorem img2img_path_composition_witness :
    deleteCalls (img2img BrespX IMG2IMG_PROMPT_TEMPLATE 1 pHello).1 = ["x/a.png"]
    ∧ deleteCalls (img2img BrespRoot IMG2IMG_PROMPT_TEMPLATE 1 pHello).1 = ["a.png"] :=
  ⟨img2img_path_composition BrespX IMG2IMG_PROMPT_TEMPLATE 1 pHello [104, 105]
      ⟨"a.png", "x"⟩ "x/a.png" (i2iJson "hello" "x/a.png") rfl rfl rfl rfl,
    img2img_path_composition BrespRoot IMG2IMG_PROMPT_TEMPLATE 1 pHello [104, 105]
      ⟨"a.png", ""⟩ "a.png" (i2iJson "hello" "a.png") rfl rfl rfl rfl⟩

/-- Claim C7 (confirmed): for every image-to-image request in which the
`upload_image` call fails, the operation makes no `queue_prompt` and no
`clean_file` call — the trace holds only the failed upload call — and the
upload error propagates to the caller unchanged. -/
theorem img2img_upload_failure_aborts (B : ComfyServer) (T : Template) (cid : Int)
    (params : List (String × String)) (bs : Bytes) (e : PyErr)
    (hb : b64decodePy (params.lookup "image") = .ok bs)
    (hu : B.upload_image_resp = .error e) :
    img2img B T cid params = ([Call.upload_image bs], .error e) := by
  simp only [img2img, hb, hu]

/-- Claim C7, witness: the theorem applied to an ordinary request against
the backend whose `upload_image` fails. -/
theorem img2img_upload_failure_aborts_witness :
    BupFail.upload_image_resp = .error (PyErr.uploadError "connection refused")
    ∧ img2img BupFail IMG2IMG_PROMPT_TEMPLATE 3 pHello =
        ([Call.upload_image [104, 105]], .error (PyErr.uploadError "connection refused")) :=
  ⟨rfl, img2img_upload_failure_aborts BupFail IMG2IMG_PROMPT_TEMPLATE 3 pHello
    [104, 105] (PyErr.uploadError "connection refused") rfl rfl⟩

/-- Claim C8 (confirmed): for every text-to-image request, rendering is
followed by exactly one `queue_prompt` call and no upload or delete call
occurs; when rendering fails, the operation aborts with the render error
before any backend call is made (the trace is empty). -/
theorem text2img_render_then_submit (B : ComfyServer) (T : Template) (cid : Int)
    (params : List (String × String)) :
    (∀ j, render T [("text", params.lookup "text")] = .ok j →
      text2img B T cid params = ([Call.queue_prompt cid j], B.queue_prompt_resp))
    ∧ (∀ e, render T [("text", params.lookup "text")] = .error e →
      text2img B T cid params = ([], .error e)) := by
  constructor
  · intro j hr
    obtain ⟨s, hs, hj⟩ := render_ok_elim hr
    simp only [text2img, hs, hj]
  · intro e hr
    rcases render_error_elim hr with hs | ⟨s, hs, hj⟩
    · simp only [text2img, hs]
    · simp only [text2img, hs, hj]

/-- Claim C8, witness: the theorem applied to the request
`text2img(7, "a red fox")` against the all-success backend: exactly one
`queue_prompt` call, tagged 7, carrying the rendered prompt. -/
theorem text2img_render_then_submit_witness :
    render TEXT2IMG_PROMPT_TEMPLATE [("text", pFox.lookup "text")] =
      .ok (t2iJson "a red fox")
    ∧ text2img Bok TEXT2IMG_PROMPT_TEMPLATE 7 pFox =
        ([Call.queue_prompt 7 (t2iJson "a red fox")], Bok.queue_prompt_resp) :=
  ⟨rfl, (text2img_render_then_submit Bok TEXT2IMG_PROMPT_TEMPLATE 7 pFox).1
    (t2iJson "a red fox") rfl⟩

/-- Claim C9 (confirmed): rendering is deterministic — the same template
with the same substitutions renders to structurally identical output. -/
theorem render_deterministic (t : Template) (m1 m2 : List (String × Option String))
    (h : m1 = m2) : render t m1 = render t m2 := by rw [h]

/-- Claim C9, witness: the theorem applied to the text-to-image template
with equal substitution mappings. -/
theorem render_deterministic_witness :
    render TEXT2IMG_PROMPT_TEMPLATE [("text", some "a red fox")] =
      render TEXT2IMG_PROMPT_TEMPLATE [("text", some "a red fox")] :=
  render_deterministic TEXT2IMG_PROMPT_TEMPLATE
    [("text", some "a red fox")] [("text", some "a red fox")] rfl

/-- Claim C10 (confirmed): when the params mapping lacks the `text` key,
`params.get('text')` is Python `None`, `substitute` stringifies it to the
literal `"None"` rather than raising a missing-placeholder error, and the
job proceeds to submission: `text2img` queues the prompt whose text field
is `"None"`, the image-to-image substitution succeeds with `"None"`
spliced in, and `img2img` (with a successful upload) proceeds through
`queue_prompt` and `clean_file`. -/
theorem missing_text_key_yields_None :
    (∀ (B : ComfyServer) (cid : Int) (params : List (String × String)),
      params.lookup "text" = none →
      text2img B TEXT2IMG_PROMPT_TEMPLATE cid params =
        ([Call.queue_prompt cid (t2iJson "None")], B.queue_prompt_resp))
    ∧ (∀ image : String,
      substitute IMG2IMG_PROMPT_TEMPLATE [("text", none), ("image", some image)] =
        .ok ("\x7b\"6\": \x7b\"inputs\": \x7b\"text\": \"None\"\x7d\x7d, \"10\": \x7b\"inputs\": \x7b\"image\": \"" ++
          (image ++ "\"\x7d\x7d\x7d")))
    ∧ (∀ (B : ComfyServer) (cid : Int) (params : List (String × String)),
      params.lookup "text" = none → params.lookup "image" = some "aGk=" →
      B.upload_image_resp = .ok respInputs →
      (img2img B IMG2IMG_PROMPT_TEMPLATE cid params).1 =
        [Call.upload_image [104, 105],
         Call.queue_prompt cid (i2iJson "None" "inputs/img123.png"),
         Call.clean_file true "inputs/img123.png"]) := by
  refine ⟨?_, fun _ => rfl, ?_⟩
  · intro B cid params h
    simp only [text2img, h]
    rfl
  · intro B cid params ht hi hu
    cases hc : B.clean_file_resp with
    | error e =>
      simp only [img2img, ht, hi, hu, hc]
      rfl
    | ok u =>
      simp only [img2img, ht, hi, hu, hc]
      rfl

/-- Claim C10, witness: the theorem applied to parameters that carry only
an image. -/
theorem missing_text_key_yields_None_witness :
    pNoText.lookup "text" = none
    ∧ text2img Bok TEXT2IMG_PROMPT_TEMPLATE 5 pNoText =
        ([Call.queue_prompt 5 (t2iJson "None")], Bok.queue_prompt_resp)
    ∧ (img2img Bok IMG2IMG_PROMPT_TEMPLATE 5 pNoText).1 =
        [Call.upload_image [104, 105],
         Call.queue_prompt 5 (i2iJson "None" "inputs/img123.png"),
         Call.clean_file true "inputs/img123.png"] :=
  ⟨rfl, missing_text_key_yields_None.1 Bok 5 pNoText rfl,
    missing_text_key_yields_None.2.2 Bok 5 pNoText rfl rfl rfl⟩

end ComfyService
